import Mathlib

/-! ChatServer and Scout: a shallow embedding.

This development embeds `src/ChatServer/ChatServer.cpp` and the radial handler of
`src/ZoneServer/Scout.cpp`.

The chat server only talks to collaborators (database, network, handlers, logger, console),
so every C++ function is embedded as a function that returns the list of collaborator calls
it issues, in program order, together with the state it leaves behind.  Every collaborator
call is taken to return normally.  Values the code reads from the outside (clock readings,
keyboard polls, the content of the process table, the outcome of the two `Init` calls of
`main`) are explicit inputs.
-/

namespace ChatServerModel

/-! ## Collaborators and their calls -/

/-- Objects the chat server creates, drives and releases. -/
inductive Component
  | DatabaseManager
  | NetworkManager
  | MessageFactory
  | DispatchClient
  | MessageDispatch
  | ChatManager
  | TradeManagerChatHandler
  | StructureManagerChatHandler
  | CSRManager
  | GroupManager
  | CharacterAdminHandler
  | PlanetMapHandler
  | ConfigManager
  deriving DecidableEq, Repr

/-- Priorities of `LogManager` used in the file. -/
inductive LogPriority
  | CRITICAL
  | NOTICE
  | INFORMATION
  deriving DecidableEq, Repr

/-- The three SQL statements the file sends to `config_process_list`.
* `bumpServerStartId`: UPDATE config_process_list SET serverstartID = serverstartID+1
  WHERE name like chat (line 90, asynchronous);
* `updateChat a p s`: UPDATE config_process_list SET address=a, port=p, status=s
  WHERE name=chat (line 197);
* `selectConnection`: SELECT id, address, port, status, active FROM config_process_list
  WHERE name=connection (line 217). -/
inductive Sql
  | bumpServerStartId
  | updateChat (address : String) (port : Nat) (status : Nat)
  | selectConnection
  deriving DecidableEq, Repr

/-- One call made on a collaborator. -/
inductive Effect
  | clockInit
  | getLocalTime
  | log (priority : LogPriority) (text : String)
  | create (c : Component)
  | dbConnect
  | executeSqlAsync (q : Sql)
  | generateService
  | executeSynchSql (q : Sql)
  | destroyResult
  | createDataBinding (fields : Nat)
  | addField (size : Nat)
  | getRowCount
  | getNextRow
  | destroyDataBinding
  | connect (address : String) (port : Nat)
  | chatMessageLibInit
  | process (c : Component)
  | shutdown (c : Component)
  | delete (c : Component)
  | destroyService
  | destroySingleton
  | configInit
  | logInit
  | cout (text : String)
  | setvbuf
  | kbhit
  | cinGet
  | sleep (ms : Nat)
  deriving DecidableEq, Repr

/-! ## The process table -/

/-- A row of `config_process_list`, with the columns the file reads or writes.  The column
`serverstartID` is left out: only the asynchronous statement of line 90 touches it and
nothing in the file reads it. -/
structure ProcessRow where
  id : Nat
  name : String
  address : String
  port : Nat
  status : Nat
  active : Nat
  deriving DecidableEq, Repr

/-- The table `config_process_list`. -/
abbrev ProcessList := List ProcessRow

/-- The record `ProcessAddress` that a selected row is bound to (lines 210 to 214). -/
structure ProcessAddress where
  mType : Nat
  mAddress : String
  mPort : Nat
  mStatus : Nat
  mActive : Nat
  deriving DecidableEq, Repr

/-- The record after `memset(&processAddress, 0, sizeof(ProcessAddress))`. -/
def ProcessAddress.zeroed : ProcessAddress :=
  { mType := 0, mAddress := "", mPort := 0, mStatus := 0, mActive := 0 }

/-- Binding of the selected columns id, address, port, status, active to the record. -/
def ProcessRow.bind (r : ProcessRow) : ProcessAddress :=
  { mType := r.id, mAddress := r.address, mPort := r.port, mStatus := r.status,
    mActive := r.active }

/-- The table after the UPDATE of line 197: every row named chat gets the new address, port
and status; other rows are untouched and no row is added. -/
def execUpdateChat (address : String) (port status : Nat) (db : ProcessList) : ProcessList :=
  db.map fun r =>
    if r.name = "chat" then { r with address := address, port := port, status := status } else r

/-- The result set of the SELECT of line 217: the rows named connection. -/
def execSelectConnection (db : ProcessList) : List ProcessRow :=
  db.filter fun r => r.name = "connection"

/-- A peer lookup by name, as another process would run it on the table. -/
def lookup (name : String) (db : ProcessList) : List ProcessRow :=
  db.filter fun r => r.name = name

/-! ## The `ChatServer` object -/

/-- The router service returned by `GenerateService`, seen through `getLocalAddress` and
`getLocalPort`. -/
structure Service where
  localAddress : String
  localPort : Nat
  deriving DecidableEq, Repr

/-- The members of `ChatServer` whose values the file reads back. -/
structure ChatServer where
  mRouterService : Service
  mLastHeartbeat : Nat
  deriving DecidableEq, Repr

/-- The two readings `getLocalTime` returns during one `Process` call: `now` in the test of
line 184 and `later` in the assignment of line 186 (read only when the test succeeds). -/
structure Tick where
  now : Nat
  later : Nat
  deriving DecidableEq, Repr

/-- The method `ChatServer::_updateDBServerList` (lines 194 to 198). -/
def ChatServer._updateDBServerList (self : ChatServer) (status : Nat) (db : ProcessList) :
    List Effect × ProcessList :=
  ([Effect.executeSynchSql
      (Sql.updateChat self.mRouterService.localAddress self.mRouterService.localPort status),
    Effect.destroyResult],
   execUpdateChat self.mRouterService.localAddress self.mRouterService.localPort status db)

/-- The method `ChatServer::_connectToConnectionServer` (lines 202 to 234). -/
def ChatServer._connectToConnectionServer (_self : ChatServer) (db : ProcessList) :
    List Effect :=
  let result := execSelectConnection db
  let count := result.length
  let processAddress : ProcessAddress :=
    if count = 1 then (result.head?.map ProcessRow.bind).getD ProcessAddress.zeroed
    else ProcessAddress.zeroed
  [Effect.createDataBinding 5, Effect.addField 4, Effect.addField 1, Effect.addField 2,
   Effect.addField 4, Effect.addField 4,
   Effect.executeSynchSql Sql.selectConnection, Effect.getRowCount]
  ++ (if count = 1 then [Effect.getNextRow] else [])
  ++ [Effect.destroyDataBinding, Effect.destroyResult,
      Effect.create Component.DispatchClient,
      Effect.connect processAddress.mAddress processAddress.mPort]

/-- The constructor `ChatServer::ChatServer` (lines 70 to 132); `svc` is the service that
`GenerateService` hands back. -/
def ChatServer.new (svc : Service) (db : ProcessList) :
    List Effect × ProcessList × ChatServer :=
  let self : ChatServer := { mRouterService := svc, mLastHeartbeat := 0 }
  let loading := self._updateDBServerList 1 db
  let online := self._updateDBServerList 2 loading.2
  ([Effect.clockInit,
    Effect.log LogPriority.CRITICAL "Chat Server Startup",
    Effect.create Component.DatabaseManager,
    Effect.create Component.NetworkManager,
    Effect.dbConnect,
    Effect.executeSqlAsync Sql.bumpServerStartId,
    Effect.generateService]
   ++ loading.1
   ++ [Effect.create Component.MessageFactory]
   ++ self._connectToConnectionServer loading.2
   ++ [Effect.create Component.MessageDispatch,
       Effect.create Component.ChatManager,
       Effect.create Component.TradeManagerChatHandler,
       Effect.create Component.StructureManagerChatHandler,
       Effect.create Component.CSRManager,
       Effect.create Component.GroupManager,
       Effect.create Component.CharacterAdminHandler,
       Effect.create Component.PlanetMapHandler,
       Effect.chatMessageLibInit]
   ++ online.1
   ++ [Effect.log LogPriority.CRITICAL "Chat Server startup complete",
       Effect.log LogPriority.INFORMATION "Chat Server - Build %s",
       Effect.log LogPriority.CRITICAL "Welcome to your SWGANH Experience!"],
   online.2, self)

/-- The destructor `ChatServer::~ChatServer` (lines 136 to 164). -/
def ChatServer.destroy (self : ChatServer) (db : ProcessList) : List Effect × ProcessList :=
  let offline := self._updateDBServerList 0 db
  ([Effect.log LogPriority.CRITICAL "ChatServer shutting down..."]
   ++ offline.1
   ++ [Effect.delete Component.CharacterAdminHandler,
       Effect.delete Component.PlanetMapHandler,
       Effect.delete Component.ChatManager,
       Effect.delete Component.CSRManager,
       Effect.shutdown Component.TradeManagerChatHandler,
       Effect.delete Component.TradeManagerChatHandler,
       Effect.delete Component.MessageDispatch,
       Effect.destroyService,
       Effect.delete Component.NetworkManager,
       Effect.destroySingleton,
       Effect.delete Component.DatabaseManager,
       Effect.log LogPriority.CRITICAL "ChatServer Shutdown Complete"],
   offline.2)

/-- The test of line 184: `getLocalTime() - mLastHeartbeat > 180000`, evaluated in unsigned
64-bit arithmetic. -/
def heartbeatDue (now mLastHeartbeat : Nat) : Bool :=
  decide (180000 < (now % 2 ^ 64 + 2 ^ 64 - mLastHeartbeat % 2 ^ 64) % 2 ^ 64)

/-- The method `ChatServer::Process` (lines 168 to 189). -/
def ChatServer.Process (self : ChatServer) (t : Tick) : List Effect × ChatServer :=
  let modules :=
    [Effect.process Component.MessageDispatch,
     Effect.process Component.MessageFactory,
     Effect.process Component.DatabaseManager,
     Effect.process Component.NetworkManager,
     Effect.process Component.CharacterAdminHandler,
     Effect.process Component.PlanetMapHandler,
     Effect.process Component.TradeManagerChatHandler,
     Effect.process Component.StructureManagerChatHandler,
     Effect.getLocalTime]
  if heartbeatDue t.now self.mLastHeartbeat then
    (modules ++ [Effect.getLocalTime,
                 Effect.log LogPriority.NOTICE "ChatServer Heartbeat."],
     { self with mLastHeartbeat := t.later % 2 ^ 32 })
  else
    (modules, self)

/-- Repeated `Process` calls on one object, one per tick, in order. -/
def ChatServer.processAll : ChatServer → List Tick → List Effect × ChatServer
  | self, [] => ([], self)
  | self, t :: ts =>
    let p := self.Process t
    let r := ChatServer.processAll p.2 ts
    (p.1 ++ r.1, r.2)

/-- One object lifetime: the constructor, one `Process` call per tick, the destructor. -/
def lifetime (svc : Service) (db : ProcessList) (ticks : List Tick) : List Effect :=
  let c := ChatServer.new svc db
  let p := c.2.2.processAll ticks
  let d := p.2.destroy c.2.1
  c.1 ++ p.1 ++ d.1

/-! ## The program entry point -/

/-- What one pass of the main loop reads from the outside: the clock readings of its
`Process` call and the keyboard, `none` when `kbhit()` is false and `some c` when it is true
and `std::cin.get()` returns `c`. -/
structure Iteration where
  tick : Tick
  key : Option Int
  deriving DecidableEq, Repr

/-- The main loop (lines 275 to 286).  The flag `exit` is never assigned, so the loop ends
only through the `break` of line 282, when the character read is q (code 113).  The result
is `none` when the given input runs out while the loop is still going. -/
def mainLoop : List Iteration → ChatServer → List Effect × Option ChatServer
  | [], _ => ([], none)
  | it :: rest, self =>
    let p := self.Process it.tick
    match it.key with
    | none =>
      let r := mainLoop rest p.2
      (p.1 ++ [Effect.kbhit, Effect.sleep 1] ++ r.1, r.2)
    | some c =>
      if c = 113 then (p.1 ++ [Effect.kbhit, Effect.cinGet], some p.2)
      else
        let r := mainLoop rest p.2
        (p.1 ++ [Effect.kbhit, Effect.cinGet, Effect.sleep 1] ++ r.1, r.2)

/-- The outcome of a run of `main`: the calls made, the process table left behind, and the
exit code (`none` while the main loop is still going when the input runs out). -/
structure Run where
  trace : List Effect
  db : ProcessList
  exitCode : Option Int
  deriving DecidableEq, Repr

/-- The function `main` (lines 245 to 294).  `configFound` is false when `ConfigManager::Init`
throws `file_not_found`, `logOpened` is false when `LogManager::Init` throws.  `exit(-1)` is
recorded as exit code -1, `return 0` as exit code 0.  The value of the `CONFIG_DIR` macro is
left out of the console message. -/
def main (configFound logOpened : Bool) (svc : Service) (db : ProcessList)
    (input : List Iteration) : Run :=
  if !configFound then
    { trace := [Effect.configInit, Effect.cout "Unable to find configuration file: ChatServer.cfg"],
      db := db, exitCode := some (-1) }
  else if !logOpened then
    { trace := [Effect.configInit, Effect.logInit,
                Effect.cout "Unable to open log file for writing"],
      db := db, exitCode := some (-1) }
  else
    let c := ChatServer.new svc db
    let l := mainLoop input c.2.2
    match l.2 with
    | none =>
      { trace := [Effect.configInit, Effect.logInit, Effect.setvbuf] ++ c.1 ++ l.1,
        db := c.2.1, exitCode := none }
    | some self =>
      let d := self.destroy c.2.1
      { trace := [Effect.configInit, Effect.logInit, Effect.setvbuf] ++ c.1 ++ l.1 ++ d.1
                 ++ [Effect.delete Component.ConfigManager],
        db := d.2, exitCode := some 0 }

/-! ## Observations on a list of calls -/

/-- The components whose `Process` is called, in call order. -/
def processOrder (tr : List Effect) : List Component :=
  tr.filterMap fun e => match e with
    | Effect.process c => some c
    | _ => none

/-- The status values of the synchronous updates of the chat row, in call order. -/
def statusWrites (tr : List Effect) : List Nat :=
  tr.filterMap fun e => match e with
    | Effect.executeSynchSql (Sql.updateChat _ _ s) => some s
    | _ => none

/-- The arguments of the `Connect` calls on the router service, in call order. -/
def connects (tr : List Effect) : List (String × Nat) :=
  tr.filterMap fun e => match e with
    | Effect.connect a p => some (a, p)
    | _ => none

/-- The components created (`new` or `Init`), in call order. -/
def creations (tr : List Effect) : List Component :=
  tr.filterMap fun e => match e with
    | Effect.create c => some c
    | _ => none

/-- The components released with `delete`, in call order. -/
def releases (tr : List Effect) : List Component :=
  tr.filterMap fun e => match e with
    | Effect.delete c => some c
    | _ => none

/-- Calls that tear a component down: `delete`, `Shutdown`, `DestroyService`,
`destroySingleton`. -/
def isTeardown : Effect → Bool
  | Effect.delete _ => true
  | Effect.shutdown _ => true
  | Effect.destroyService => true
  | Effect.destroySingleton => true
  | _ => false

/-- Whether a list of calls holds the heartbeat log line. -/
def logsHeartbeat (tr : List Effect) : Bool :=
  tr.contains (Effect.log LogPriority.NOTICE "ChatServer Heartbeat.")

/-- The steps of the main loop and of the teardown kept when looking at their interleaving:
`Process` calls on components, keyboard polls, and `delete`. -/
def isLoopStep : Effect → Bool
  | Effect.process _ => true
  | Effect.kbhit => true
  | Effect.delete _ => true
  | _ => false

/-- The order of `Process` calls the specification gives for one tick. -/
def specProcessOrder : List Component :=
  [Component.NetworkManager, Component.MessageDispatch, Component.DatabaseManager,
   Component.CharacterAdminHandler, Component.PlanetMapHandler,
   Component.TradeManagerChatHandler, Component.StructureManagerChatHandler]

/-- The order of `Process` calls in the body of `ChatServer::Process`. -/
def codeProcessOrder : List Component :=
  [Component.MessageDispatch, Component.MessageFactory, Component.DatabaseManager,
   Component.NetworkManager, Component.CharacterAdminHandler, Component.PlanetMapHandler,
   Component.TradeManagerChatHandler, Component.StructureManagerChatHandler]

/-- The components the specification says are created by the constructor and released by the
destructor. -/
def managedComponents : List Component :=
  [Component.DatabaseManager, Component.NetworkManager, Component.MessageDispatch,
   Component.ChatManager, Component.TradeManagerChatHandler,
   Component.StructureManagerChatHandler, Component.CSRManager, Component.GroupManager,
   Component.CharacterAdminHandler, Component.PlanetMapHandler]

/-- The core services among them. -/
def coreServices : List Component :=
  [Component.DatabaseManager, Component.NetworkManager, Component.MessageDispatch]

/-- The components the destructor passes to `delete`. -/
def deletedComponents : List Component :=
  [Component.CharacterAdminHandler, Component.PlanetMapHandler, Component.ChatManager,
   Component.CSRManager, Component.TradeManagerChatHandler, Component.MessageDispatch,
   Component.NetworkManager, Component.DatabaseManager]

/-- The steps of one pass of the main loop, seen through `isLoopStep`. -/
def loopPass : List Effect :=
  codeProcessOrder.map Effect.process ++ [Effect.kbhit]

/-- The `delete` calls of the shutdown path of `main`: those of the destructor, then the one
on the configuration manager. -/
def teardownDeletes : List Effect :=
  (deletedComponents ++ [Component.ConfigManager]).map Effect.delete

/-- The steps of `n` consecutive passes of the main loop, seen through `isLoopStep`. -/
def passes : Nat → List Effect
  | 0 => []
  | n + 1 => loopPass ++ passes n

/-- What `isLoopStep` shows of a run of `main` whose loop makes `n` passes and then leaves
through the teardown. -/
def stepsOfRun (n : Nat) : List Effect :=
  passes n ++ teardownDeletes

/-- The `now` readings of those calls, among consecutive `Process` calls driven by the given
ticks, that log a heartbeat. -/
def heartbeatTimes : ChatServer → List Tick → List Nat
  | _, [] => []
  | self, t :: ts =>
    if logsHeartbeat (self.Process t).1 then t.now :: heartbeatTimes (self.Process t).2 ts
    else heartbeatTimes (self.Process t).2 ts

/-- A clock that never runs backwards and stays below `bound`: starting after the reading
`prev`, every reading is at least the one before it. -/
def clockWithin (bound : Nat) : Nat → List Tick → Prop
  | _, [] => True
  | prev, t :: ts => prev ≤ t.now ∧ t.now ≤ t.later ∧ t.later < bound ∧ clockWithin bound t.later ts

/-- The two handler modules created last by the constructor. -/
def lastHandlers : List Component :=
  [Component.CharacterAdminHandler, Component.PlanetMapHandler]

end ChatServerModel

namespace ScoutModel

/-- Calls that `Scout::handleObjectMenuSelect` makes on the scout manager, the structure
manager and the message library. -/
inductive Effect
  | createCamp (itemType : Nat)
  | getDeedData (itemType : Nat)
  | sendEnterStructurePlacement (structureObjectString : String)
  deriving DecidableEq, Repr

/-- The enumerators the function compares against; their values are declared in headers
outside the two source files and are taken as inputs. -/
structure Enums where
  radId_itemUse : Nat
  ItemType_Camp_basic : Nat
  ItemType_Camp_quality : Nat
  deriving DecidableEq, Repr

/-- The method `Scout::handleObjectMenuSelect` (lines 38 to 66).  `itemType` is
`this->getItemType()`, `deedData` is `gStructureManager->getDeedData`, `srcIsPlayer` tells
whether the `dynamic_cast` to `PlayerObject` succeeds. -/
def handleObjectMenuSelect (E : Enums) (itemType : Nat) (deedData : Nat → Option String)
    (messageType : Nat) (srcIsPlayer : Bool) : List Effect :=
  if srcIsPlayer then
    if messageType = E.radId_itemUse then
      if itemType ≥ E.ItemType_Camp_basic || itemType ≤ E.ItemType_Camp_quality then
        [Effect.createCamp itemType]
      else
        match deedData itemType with
        | some s => [Effect.getDeedData itemType, Effect.sendEnterStructurePlacement s]
        | none => [Effect.getDeedData itemType]
    else []
  else []

/-- Whether an item type is a camp: between `ItemType_Camp_basic` and `ItemType_Camp_quality`
inclusive. -/
def isCamp (E : Enums) (itemType : Nat) : Bool :=
  decide (E.ItemType_Camp_basic ≤ itemType ∧ itemType ≤ E.ItemType_Camp_quality)

end ScoutModel

namespace ChatServerModel

/-! ## Supporting lemmas -/

theorem statusWrites_append (xs ys : List Effect) :
    statusWrites (xs ++ ys) = statusWrites xs ++ statusWrites ys := by
  simp [statusWrites, List.filterMap_append]

theorem statusWrites_Process (self : ChatServer) (t : Tick) :
    statusWrites (self.Process t).1 = [] := by
  unfold ChatServer.Process
  split <;> rfl

theorem statusWrites_processAll (ticks : List Tick) (self : ChatServer) :
    statusWrites (self.processAll ticks).1 = [] := by
  induction ticks generalizing self with
  | nil => rfl
  | cons t ts ih =>
    simp only [ChatServer.processAll, statusWrites_append, statusWrites_Process, ih,
      List.append_nil]

theorem statusWrites_connect (self : ChatServer) (db : ProcessList) :
    statusWrites (self._connectToConnectionServer db) = [] := by
  unfold ChatServer._connectToConnectionServer
  by_cases h : (execSelectConnection db).length = 1 <;> simp [h, statusWrites]

theorem statusWrites_new (svc : Service) (db : ProcessList) :
    statusWrites (ChatServer.new svc db).1 = [1, 2] := by
  simp only [ChatServer.new, statusWrites_append, statusWrites_connect,
    ChatServer._updateDBServerList]
  rfl

theorem statusWrites_destroy (self : ChatServer) (db : ProcessList) :
    statusWrites (self.destroy db).1 = [0] := by
  simp [ChatServer.destroy, ChatServer._updateDBServerList, statusWrites]

theorem select_connection_update (a : String) (p s : Nat) (db : ProcessList) :
    execSelectConnection (execUpdateChat a p s db) = execSelectConnection db := by
  induction db with
  | nil => rfl
  | cons r rs ih =>
    simp only [execSelectConnection, execUpdateChat] at ih ⊢
    by_cases h : r.name = "chat"
    · simp [List.filter_cons, h, ih]
    · simp [List.filter_cons, h, ih]

theorem lookup_chat_update (a : String) (p s : Nat) (db : ProcessList) :
    lookup "chat" (execUpdateChat a p s db)
      = (lookup "chat" db).map
          (fun r => { r with address := a, port := p, status := s }) := by
  induction db with
  | nil => rfl
  | cons r rs ih =>
    simp only [lookup, execUpdateChat] at ih ⊢
    by_cases h : r.name = "chat"
    · simp [List.filter_cons, h, ih]
    · simp [List.filter_cons, h, ih]

theorem connect_trace_of_count_ne_one (self : ChatServer) (db : ProcessList)
    (h : (execSelectConnection db).length ≠ 1) :
    self._connectToConnectionServer db
      = [Effect.createDataBinding 5, Effect.addField 4, Effect.addField 1, Effect.addField 2,
         Effect.addField 4, Effect.addField 4,
         Effect.executeSynchSql Sql.selectConnection, Effect.getRowCount,
         Effect.destroyDataBinding, Effect.destroyResult,
         Effect.create Component.DispatchClient, Effect.connect "" 0] := by
  simp [ChatServer._connectToConnectionServer, h, ProcessAddress.zeroed]

theorem loopSteps_Process (self : ChatServer) (t : Tick) :
    (self.Process t).1.filter isLoopStep = codeProcessOrder.map Effect.process := by
  unfold ChatServer.Process
  split <;> rfl

theorem loopSteps_new (svc : Service) (db : ProcessList) :
    (ChatServer.new svc db).1.filter isLoopStep = [] := by
  unfold ChatServer.new ChatServer._connectToConnectionServer
  by_cases h : (execSelectConnection
      (({ mRouterService := svc, mLastHeartbeat := 0 } : ChatServer)._updateDBServerList 1
        db).2).length = 1 <;>
    simp [h, ChatServer._updateDBServerList, isLoopStep]

theorem loopSteps_destroy (self : ChatServer) (db : ProcessList) :
    (self.destroy db).1.filter isLoopStep = deletedComponents.map Effect.delete := by
  rfl

theorem mainLoop_until_q (pre : List Iteration) (it : Iteration) (rest : List Iteration)
    (hpre : ∀ i ∈ pre, i.key ≠ some 113) (hit : it.key = some 113) (self : ChatServer) :
    (∃ last, (mainLoop (pre ++ it :: rest) self).2 = some last)
    ∧ (mainLoop (pre ++ it :: rest) self).1.filter isLoopStep = passes (pre.length + 1) := by
  induction pre generalizing self with
  | nil =>
    simp only [List.nil_append, mainLoop, hit, if_true, List.filter_append,
      loopSteps_Process, List.length_nil]
    exact ⟨⟨_, rfl⟩, rfl⟩
  | cons i pre ih =>
    have hi : i.key ≠ some 113 := hpre i (List.mem_cons_self _ _)
    have hrest : ∀ j ∈ pre, j.key ≠ some 113 := fun j hj => hpre j (List.mem_cons_of_mem _ hj)
    obtain ⟨⟨last, hlast⟩, hsteps⟩ := ih hrest (self.Process i.tick).2
    cases hk : i.key with
    | none =>
      refine ⟨⟨last, ?_⟩, ?_⟩
      · simpa [mainLoop, hk] using hlast
      · simp only [List.cons_append, mainLoop, hk, List.filter_append, loopSteps_Process,
          List.length_cons, List.append_eq]
        rw [hsteps]
        rfl
    | some c =>
      have hc : c ≠ 113 := fun h => hi (by rw [hk, h])
      refine ⟨⟨last, ?_⟩, ?_⟩
      · simpa [mainLoop, hk, hc] using hlast
      · simp only [List.cons_append, mainLoop, hk, hc, if_false, List.filter_append,
          loopSteps_Process, List.length_cons, List.append_eq]
        rw [hsteps]
        rfl

theorem mainLoop_ends_of_q (input : List Iteration) (self : ChatServer)
    (h : ∃ it ∈ input, it.key = some 113) :
    ∃ last, (mainLoop input self).2 = some last := by
  induction input generalizing self with
  | nil => simp at h
  | cons i rest ih =>
    cases hk : i.key with
    | none =>
      have h2 : ∃ it ∈ rest, it.key = some 113 := by
        obtain ⟨it, hmem, hq⟩ := h
        rcases List.mem_cons.mp hmem with rfl | hmem
        · rw [hk] at hq; cases hq
        · exact ⟨it, hmem, hq⟩
      simpa [mainLoop, hk] using ih (self.Process i.tick).2 h2
    | some c =>
      by_cases hc : c = 113
      · exact ⟨(self.Process i.tick).2, by simp [mainLoop, hk, hc]⟩
      · have h2 : ∃ it ∈ rest, it.key = some 113 := by
          obtain ⟨it, hmem, hq⟩ := h
          rcases List.mem_cons.mp hmem with rfl | hmem
          · rw [hk] at hq; exact absurd (Option.some.inj hq) hc
          · exact ⟨it, hmem, hq⟩
        simpa [mainLoop, hk, hc] using ih (self.Process i.tick).2 h2

theorem logsHeartbeat_Process (self : ChatServer) (t : Tick) :
    logsHeartbeat (self.Process t).1 = heartbeatDue t.now self.mLastHeartbeat := by
  unfold ChatServer.Process
  by_cases h : heartbeatDue t.now self.mLastHeartbeat = true
  · rw [if_pos h, h]; rfl
  · rw [if_neg h, Bool.eq_false_iff.mpr h]; rfl

theorem heartbeatDue_of_small (now last : Nat) (h1 : last ≤ now) (h2 : now < 2 ^ 64) :
    heartbeatDue now last = decide (last + 180000 < now) := by
  unfold heartbeatDue
  have e : (now % 2 ^ 64 + 2 ^ 64 - last % 2 ^ 64) % 2 ^ 64 = now - last := by
    have hl : last % 2 ^ 64 = last := Nat.mod_eq_of_lt (by omega)
    have hn : now % 2 ^ 64 = now := Nat.mod_eq_of_lt h2
    rw [hl, hn]
    have : now + 2 ^ 64 - last = (now - last) + 2 ^ 64 := by omega
    rw [this, Nat.add_mod_right]
    exact Nat.mod_eq_of_lt (by omega)
  rw [e]
  by_cases h : last + 180000 < now
  · have : 180000 < now - last := by omega
    simp [h, this]
  · have : ¬ 180000 < now - last := by omega
    simp [h, this]

theorem heartbeatTimes_spaced (ticks : List Tick) (self : ChatServer) (prev : Nat)
    (hlast : self.mLastHeartbeat ≤ prev) (hclock : clockWithin (2 ^ 32) prev ticks) :
    (∀ x ∈ heartbeatTimes self ticks, self.mLastHeartbeat + 180000 < x)
    ∧ (heartbeatTimes self ticks).Pairwise (fun a b => a + 180000 < b) := by
  induction ticks generalizing self prev with
  | nil => simp [heartbeatTimes]
  | cons t ts ih =>
    obtain ⟨h1, h2, h3, h4⟩ := hclock
    have hdue := heartbeatDue_of_small t.now self.mLastHeartbeat (by omega) (by omega)
    by_cases hfire : self.mLastHeartbeat + 180000 < t.now
    · have hd : heartbeatDue t.now self.mLastHeartbeat = true := by simp [hdue, hfire]
      have hs : (self.Process t).2.mLastHeartbeat = t.later := by
        simp only [ChatServer.Process, hd, if_true]
        exact Nat.mod_eq_of_lt h3
      obtain ⟨ihA, ihB⟩ := ih (self.Process t).2 t.later (by omega) h4
      have hT : heartbeatTimes self (t :: ts)
          = t.now :: heartbeatTimes (self.Process t).2 ts := by
        simp [heartbeatTimes, logsHeartbeat_Process, hd]
      rw [hT]
      refine ⟨?_, List.pairwise_cons.mpr ⟨?_, ihB⟩⟩
      · intro x hx
        rcases List.mem_cons.mp hx with rfl | hx
        · exact hfire
        · have := ihA x hx
          omega
      · intro x hx
        have := ihA x hx
        omega
    · have hd : heartbeatDue t.now self.mLastHeartbeat = false := by simp [hdue, hfire]
      have hs : (self.Process t).2 = self := by
        simp [ChatServer.Process, hd]
      have hT : heartbeatTimes self (t :: ts) = heartbeatTimes self ts := by
        simp [heartbeatTimes, logsHeartbeat_Process, hd, hs]
      rw [hT]
      exact ih self t.later (by omega) h4

/-! ## C1: order of the `Process` calls in one tick -/

/-- C1, as stated, fails: for the server bound to 10.0.0.5:5000 with clock reading 0, the
order in which `ChatServer::Process` calls the components is not the order transport,
dispatcher, database, handlers given by the specification. -/
theorem C1_process_order_differs_from_spec :
    processOrder (ChatServer.Process ⟨⟨"10.0.0.5", 5000⟩, 0⟩ ⟨0, 0⟩).1 ≠ specProcessOrder := by
  decide

/-- C1, amended: for every server state and every clock reading, one call of
`ChatServer::Process` calls `Process` on MessageDispatch, MessageFactory, DatabaseManager,
NetworkManager, CharacterAdminHandler, PlanetMapHandler, TradeManagerChatHandler and
StructureManagerChatHandler, in that order. -/
theorem C1_process_order (self : ChatServer) (t : Tick) :
    processOrder (self.Process t).1 = codeProcessOrder := by
  unfold ChatServer.Process
  split <;> rfl

/-! ## C3: the status values written over one lifetime -/

/-- C3: over one lifetime (constructor, one `Process` call per tick for any list of ticks,
destructor) the status values written for the chat row are exactly 1 (Loading), 2 (Online),
0 (Offline), and the `Process` calls write none. -/
theorem C3_status_sequence (svc : Service) (db : ProcessList) (ticks : List Tick) :
    statusWrites (lifetime svc db ticks) = [1, 2, 0]
    ∧ statusWrites ((ChatServer.new svc db).2.2.processAll ticks).1 = [] := by
  refine ⟨?_, statusWrites_processAll _ _⟩
  simp only [lifetime, statusWrites_append, statusWrites_new, statusWrites_processAll,
    statusWrites_destroy]
  rfl

/-! ## C5: the Offline write comes before any teardown -/

/-- C5: in every run of the destructor the synchronous write of status 0 (Offline) is
issued, and no `delete`, `Shutdown`, `DestroyService` or `destroySingleton` call comes
before it. -/
theorem C5_offline_before_teardown (self : ChatServer) (db : ProcessList) :
    ∃ pre post,
      (self.destroy db).1
        = pre ++ Effect.executeSynchSql
            (Sql.updateChat self.mRouterService.localAddress self.mRouterService.localPort 0)
          :: post
      ∧ (∀ e ∈ pre, isTeardown e = false)
      ∧ (∃ e ∈ post, isTeardown e = true) := by
  refine ⟨[Effect.log LogPriority.CRITICAL "ChatServer shutting down..."], _, rfl, ?_, ?_⟩
  · intro e he
    simp at he
    subst he
    rfl
  · exact ⟨Effect.delete Component.CharacterAdminHandler, by simp, rfl⟩

/-! ## C6: release order against creation order -/

/-- C6, as stated, fails: for the server bound to 10.0.0.5:5000 on an empty table, the
sequence of components the destructor deletes is not the reverse of the sequence in which
the constructor created them; in particular PlanetMapHandler is created after
CharacterAdminHandler and is also deleted after it. -/
theorem C6_release_not_reverse_of_creation :
    (releases ((ChatServer.new ⟨"10.0.0.5", 5000⟩ []).2.2.destroy []).1).filter
        (fun c => decide (c ∈ managedComponents))
      ≠ ((creations (ChatServer.new ⟨"10.0.0.5", 5000⟩ []).1).filter
          (fun c => decide (c ∈ managedComponents))).reverse
    ∧ (creations (ChatServer.new ⟨"10.0.0.5", 5000⟩ []).1).filter
        (fun c => decide (c ∈ lastHandlers))
      = [Component.CharacterAdminHandler, Component.PlanetMapHandler]
    ∧ (releases ((ChatServer.new ⟨"10.0.0.5", 5000⟩ []).2.2.destroy []).1).filter
        (fun c => decide (c ∈ lastHandlers))
      = [Component.CharacterAdminHandler, Component.PlanetMapHandler] := by
  decide

/-- C6, amended: the destructor deletes CharacterAdminHandler, PlanetMapHandler, ChatManager,
CSRManager, TradeManagerChatHandler, MessageDispatch, NetworkManager and DatabaseManager,
each exactly once and in that order; the core services (MessageDispatch, NetworkManager,
DatabaseManager) are deleted after these handler modules and in the reverse of the order in
which the constructor created them. -/
theorem C6_release_order (svc : Service) (db db1 : ProcessList) (self : ChatServer) :
    (releases (self.destroy db1).1).filter (fun c => decide (c ∈ deletedComponents))
      = deletedComponents
    ∧ (releases (self.destroy db1).1).filter (fun c => decide (c ∈ coreServices))
      = ((creations (ChatServer.new svc db).1).filter
          (fun c => decide (c ∈ coreServices))).reverse := by
  constructor
  · rfl
  · unfold ChatServer.new ChatServer._connectToConnectionServer
    by_cases h : (execSelectConnection
        (({ mRouterService := svc, mLastHeartbeat := 0 } : ChatServer)._updateDBServerList 1
          db).2).length = 1 <;>
      simp [h, creations, releases, ChatServer.destroy, ChatServer._updateDBServerList,
        coreServices]

/-! ## C2: a connection lookup that does not yield exactly one row -/

/-- C2, as stated, fails: on the empty process table the connection lookup yields zero rows,
yet the constructor still calls `Connect` on the router service and still writes status 2
(Online) for the chat row. -/
theorem C2_startup_does_not_fail_on_empty_table :
    ¬ ((execSelectConnection []).length ≠ 1 →
        connects (ChatServer.new ⟨"10.0.0.5", 5000⟩ []).1 = []
        ∧ 2 ∉ statusWrites (ChatServer.new ⟨"10.0.0.5", 5000⟩ []).1) := by
  decide

/-- C2, amended: for every process table in which the connection lookup yields a row count
other than 1, the constructor fetches no row, calls `Connect` on the router service exactly
once with the zero-filled `ProcessAddress` (empty address, port 0), and goes on to write
status 1 and then status 2 (Online) for the chat row; it has no failure path. -/
theorem C2_startup_on_bad_lookup (svc : Service) (db : ProcessList)
    (h : (execSelectConnection db).length ≠ 1) :
    Effect.getNextRow ∉ (ChatServer.new svc db).1
    ∧ connects (ChatServer.new svc db).1 = [("", 0)]
    ∧ statusWrites (ChatServer.new svc db).1 = [1, 2] := by
  have h1 : (execSelectConnection
      (execUpdateChat svc.localAddress svc.localPort 1 db)).length ≠ 1 := by
    rw [select_connection_update]; exact h
  refine ⟨?_, ?_, statusWrites_new svc db⟩
  · simp [ChatServer.new, ChatServer._updateDBServerList,
      connect_trace_of_count_ne_one _ _ h1]
  · simp [ChatServer.new, ChatServer._updateDBServerList,
      connect_trace_of_count_ne_one _ _ h1, connects]

/-- C2, amended, at a table with two rows named connection (the ambiguous case). -/
theorem C2_startup_on_bad_lookup_witness :
    (execSelectConnection
        [⟨1, "connection", "10.0.0.1", 44991, 2, 1⟩,
         ⟨2, "connection", "10.0.0.2", 44991, 2, 1⟩]).length ≠ 1
    ∧ Effect.getNextRow ∉ (ChatServer.new ⟨"10.0.0.5", 5000⟩
        [⟨1, "connection", "10.0.0.1", 44991, 2, 1⟩,
         ⟨2, "connection", "10.0.0.2", 44991, 2, 1⟩]).1
    ∧ connects (ChatServer.new ⟨"10.0.0.5", 5000⟩
        [⟨1, "connection", "10.0.0.1", 44991, 2, 1⟩,
         ⟨2, "connection", "10.0.0.2", 44991, 2, 1⟩]).1 = [("", 0)]
    ∧ statusWrites (ChatServer.new ⟨"10.0.0.5", 5000⟩
        [⟨1, "connection", "10.0.0.1", 44991, 2, 1⟩,
         ⟨2, "connection", "10.0.0.2", 44991, 2, 1⟩]).1 = [1, 2] :=
  ⟨by decide,
   C2_startup_on_bad_lookup ⟨"10.0.0.5", 5000⟩
    [⟨1, "connection", "10.0.0.1", 44991, 2, 1⟩,
     ⟨2, "connection", "10.0.0.2", 44991, 2, 1⟩] (by decide)⟩

/-! ## C4: the self-registration and a later lookup -/

/-- C4, as stated, fails: on the empty process table, after `_updateDBServerList(1)` with the
service bound to 10.0.0.5:5000, a lookup of chat does not return one entry with that address,
that port and status 1; it returns nothing. -/
theorem C4_update_inserts_no_row :
    ¬ ∃ r, lookup "chat"
          ((({ mRouterService := ⟨"10.0.0.5", 5000⟩, mLastHeartbeat := 0 } :
            ChatServer)._updateDBServerList 1 []).2) = [r]
        ∧ r.address = "10.0.0.5" ∧ r.port = 5000 ∧ r.status = 1 := by
  rintro ⟨r, hr, -⟩
  simp [ChatServer._updateDBServerList, execUpdateChat, lookup] at hr

/-- C4, amended: for every process table that holds exactly one row named chat, every
listening address a and port p: after `_updateDBServerList(1)` with the service bound to a
and p, a lookup of chat returns exactly one entry, with address a, port p and status 1
(Loading).  The statement is an UPDATE and adds no row. -/
theorem C4_lookup_after_registration (self : ChatServer) (db : ProcessList)
    (h : (lookup "chat" db).length = 1) :
    ∃ r, lookup "chat" (self._updateDBServerList 1 db).2 = [r]
      ∧ r.address = self.mRouterService.localAddress
      ∧ r.port = self.mRouterService.localPort
      ∧ r.status = 1 := by
  obtain ⟨r0, hr0⟩ := List.length_eq_one.mp h
  refine ⟨{ r0 with address := self.mRouterService.localAddress,
                    port := self.mRouterService.localPort, status := 1 }, ?_, rfl, rfl, rfl⟩
  simp [ChatServer._updateDBServerList, lookup_chat_update, hr0]

/-- C4, amended, at a table whose chat row was left Offline at another address by an earlier
run. -/
theorem C4_lookup_after_registration_witness :
    (lookup "chat"
        [⟨1, "connection", "10.0.0.1", 44991, 2, 1⟩,
         ⟨2, "chat", "127.0.0.1", 5001, 0, 1⟩]).length = 1
    ∧ ∃ r, lookup "chat"
          ((({ mRouterService := ⟨"10.0.0.5", 5000⟩, mLastHeartbeat := 0 } :
            ChatServer)._updateDBServerList 1
              [⟨1, "connection", "10.0.0.1", 44991, 2, 1⟩,
               ⟨2, "chat", "127.0.0.1", 5001, 0, 1⟩]).2) = [r]
      ∧ r.address = "10.0.0.5" ∧ r.port = 5000 ∧ r.status = 1 :=
  ⟨by decide,
   C4_lookup_after_registration
    { mRouterService := ⟨"10.0.0.5", 5000⟩, mLastHeartbeat := 0 }
    [⟨1, "connection", "10.0.0.1", 44991, 2, 1⟩, ⟨2, "chat", "127.0.0.1", 5001, 0, 1⟩]
    (by decide)⟩

/-! ## C7: the heartbeat timer -/

/-- C7, evaluated on the code: starting from `mLastHeartbeat = 0`, a `Process` call at clock
reading 4295167296 (2^32 + 200000) logs a heartbeat and stores 200000, the reading cut to 32
bits; the next `Process` call, one millisecond later, logs a heartbeat again, although the
two readings are not more than 180000 ms apart. -/
theorem C7_heartbeat_twice_within_interval :
    logsHeartbeat
        (ChatServer.Process ⟨⟨"10.0.0.5", 5000⟩, 0⟩ ⟨4295167296, 4295167296⟩).1 = true
    ∧ (ChatServer.Process ⟨⟨"10.0.0.5", 5000⟩, 0⟩ ⟨4295167296, 4295167296⟩).2.mLastHeartbeat
        = 200000
    ∧ logsHeartbeat
        (ChatServer.Process
          (ChatServer.Process ⟨⟨"10.0.0.5", 5000⟩, 0⟩ ⟨4295167296, 4295167296⟩).2
          ⟨4295167297, 4295167297⟩).1 = true
    ∧ 4295167296 ≤ 4295167297
    ∧ ¬ (4295167296 + 180000 < 4295167297) := by
  decide

/-! ## C8: exit codes of `main` -/

/-- C8: when `ConfigManager::Init` reports the configuration file missing, or when
`LogManager::Init` fails, `main` ends through `exit(-1)` having made no call other than the
`Init` calls and the console message, with the process table untouched (no `ChatServer` is
built); and whenever the keyboard input holds a pending q, `main` returns exit code 0. -/
theorem C8_exit_codes (logOpened : Bool) (svc : Service) (db : ProcessList)
    (input : List Iteration) :
    main false logOpened svc db input
      = { trace := [Effect.configInit,
                    Effect.cout "Unable to find configuration file: ChatServer.cfg"],
          db := db, exitCode := some (-1) }
    ∧ main true false svc db input
      = { trace := [Effect.configInit, Effect.logInit,
                    Effect.cout "Unable to open log file for writing"],
          db := db, exitCode := some (-1) }
    ∧ ((∃ it ∈ input, it.key = some 113) →
        (main true true svc db input).exitCode = some 0) := by
  refine ⟨rfl, rfl, ?_⟩
  intro h
  obtain ⟨last, hlast⟩ := mainLoop_ends_of_q input (ChatServer.new svc db).2.2 h
  simp [main, hlast]

/-- C8, at an input whose second keyboard poll finds a pending q. -/
theorem C8_exit_codes_witness :
    (∃ it ∈ [(⟨⟨0, 0⟩, none⟩ : Iteration), ⟨⟨1, 1⟩, some 113⟩], it.key = some 113)
    ∧ (main true true ⟨"10.0.0.5", 5000⟩ []
        [⟨⟨0, 0⟩, none⟩, ⟨⟨1, 1⟩, some 113⟩]).exitCode = some 0 :=
  ⟨⟨⟨⟨1, 1⟩, some 113⟩, by simp, rfl⟩,
   (C8_exit_codes true ⟨"10.0.0.5", 5000⟩ [] [⟨⟨0, 0⟩, none⟩, ⟨⟨1, 1⟩, some 113⟩]).2.2
     ⟨⟨⟨1, 1⟩, some 113⟩, by simp, rfl⟩⟩

/-! ## C9: when the main loop ends -/

/-- C9, as stated, fails: with a pending keystroke x (code 120) in the first pass and a
pending q in the second, the loop does not end in the first pass: the run shows two rounds
of `Process` calls, each followed by its keyboard poll, before the teardown. -/
theorem C9_pending_key_other_than_q_keeps_looping :
    (main true true ⟨"10.0.0.5", 5000⟩ []
        [⟨⟨0, 0⟩, some 120⟩, ⟨⟨1, 1⟩, some 113⟩]).trace.filter isLoopStep ≠ stepsOfRun 1
    ∧ (main true true ⟨"10.0.0.5", 5000⟩ []
        [⟨⟨0, 0⟩, some 120⟩, ⟨⟨1, 1⟩, some 113⟩]).trace.filter isLoopStep = stepsOfRun 2 := by
  decide

/-- C9, amended: for every keyboard input, if q is not read in the passes `pre` and is read
in the next pass `it`, then the run of `main` consists of exactly `pre.length + 1` passes,
each one the eight `Process` calls followed by one keyboard poll, and after the poll that
reads q no `Process` call is made before the teardown deletes; the run returns 0.  In every
pass the keyboard poll comes right after the calls of the whole `Process` call of that pass.
A pending keystroke other than q does not end the loop. -/
theorem C9_loop_ends_at_first_q (svc : Service) (db : ProcessList)
    (pre : List Iteration) (it : Iteration) (rest : List Iteration)
    (hpre : ∀ i ∈ pre, i.key ≠ some 113) (hit : it.key = some 113) :
    (main true true svc db (pre ++ it :: rest)).trace.filter isLoopStep
      = stepsOfRun (pre.length + 1)
    ∧ (main true true svc db (pre ++ it :: rest)).exitCode = some 0
    ∧ (∀ (self : ChatServer) (i : Iteration) (more : List Iteration),
        ∃ tail, (mainLoop (i :: more) self).1
          = (self.Process i.tick).1 ++ Effect.kbhit :: tail) := by
  obtain ⟨⟨last, hlast⟩, hsteps⟩ :=
    mainLoop_until_q pre it rest hpre hit (ChatServer.new svc db).2.2
  refine ⟨?_, ?_, ?_⟩
  · simp only [main, hlast, Bool.not_true, Bool.false_eq_true, if_false, List.filter_append,
      loopSteps_new, hsteps, loopSteps_destroy, stepsOfRun, teardownDeletes]
    have e1 : List.filter isLoopStep [Effect.configInit, Effect.logInit, Effect.setvbuf]
        = [] := rfl
    have e2 : List.filter isLoopStep [Effect.delete Component.ConfigManager]
        = [Effect.delete Component.ConfigManager] := rfl
    rw [e1, e2, List.map_append, List.nil_append, List.nil_append, List.append_assoc]
    rfl
  · simp [main, hlast]
  · intro self i more
    cases hk : i.key with
    | none =>
      exact ⟨Effect.sleep 1 :: (mainLoop more (self.Process i.tick).2).1,
        by simp [mainLoop, hk]⟩
    | some c =>
      by_cases hc : c = 113
      · exact ⟨[Effect.cinGet], by simp [mainLoop, hk, hc]⟩
      · exact ⟨Effect.cinGet :: Effect.sleep 1 :: (mainLoop more (self.Process i.tick).2).1,
          by simp [mainLoop, hk, hc]⟩

/-- C9, amended, at an input with an idle pass, a pass that reads x, and a pass that reads
q, followed by input that is never consumed. -/
theorem C9_loop_ends_at_first_q_witness :
    (∀ i ∈ [(⟨⟨0, 0⟩, none⟩ : Iteration), ⟨⟨1, 1⟩, some 120⟩], i.key ≠ some 113)
    ∧ (main true true ⟨"10.0.0.5", 5000⟩ []
        ([⟨⟨0, 0⟩, none⟩, ⟨⟨1, 1⟩, some 120⟩] ++ ⟨⟨2, 2⟩, some 113⟩ :: [⟨⟨3, 3⟩, none⟩])
        ).trace.filter isLoopStep = stepsOfRun 3
    ∧ (main true true ⟨"10.0.0.5", 5000⟩ []
        ([⟨⟨0, 0⟩, none⟩, ⟨⟨1, 1⟩, some 120⟩] ++ ⟨⟨2, 2⟩, some 113⟩ :: [⟨⟨3, 3⟩, none⟩])
        ).exitCode = some 0 :=
  ⟨by decide,
   (C9_loop_ends_at_first_q ⟨"10.0.0.5", 5000⟩ []
     [⟨⟨0, 0⟩, none⟩, ⟨⟨1, 1⟩, some 120⟩] ⟨⟨2, 2⟩, some 113⟩ [⟨⟨3, 3⟩, none⟩]
     (by decide) rfl).1,
   (C9_loop_ends_at_first_q ⟨"10.0.0.5", 5000⟩ []
     [⟨⟨0, 0⟩, none⟩, ⟨⟨1, 1⟩, some 120⟩] ⟨⟨2, 2⟩, some 113⟩ [⟨⟨3, 3⟩, none⟩]
     (by decide) rfl).2.1⟩

end ChatServerModel

namespace ScoutModel

/-! ## C10: the camp test of the radial handler -/

/-- C10, evaluated on the code: whenever `ItemType_Camp_basic` is at most
`ItemType_Camp_quality`, the handler called with `radId_itemUse` and a player creates a camp
for every item type, also for one outside the camp range, and never reaches the deed
placement branch. -/
theorem C10_camp_created_for_every_item (E : Enums) (itemType : Nat)
    (deedData : Nat → Option String)
    (h : E.ItemType_Camp_basic ≤ E.ItemType_Camp_quality) :
    handleObjectMenuSelect E itemType deedData E.radId_itemUse true
      = [Effect.createCamp itemType] := by
  have hcond : (decide (itemType ≥ E.ItemType_Camp_basic)
      || decide (itemType ≤ E.ItemType_Camp_quality)) = true := by
    rcases Nat.lt_or_ge itemType E.ItemType_Camp_basic with hlt | hge
    · have : itemType ≤ E.ItemType_Camp_quality := by omega
      simp [this]
    · simp [hge]
  simp only [handleObjectMenuSelect, if_true, hcond]

/-- C10, evaluated at an item type above the camp range, for which deed data exists. -/
theorem C10_camp_created_for_every_item_witness :
    isCamp ⟨21, 100, 105⟩ 106 = false
    ∧ handleObjectMenuSelect ⟨21, 100, 105⟩ 106 (fun _ => some "deed") 21 true
      = [Effect.createCamp 106] :=
  ⟨by decide,
   C10_camp_created_for_every_item ⟨21, 100, 105⟩ 106 (fun _ => some "deed") (by decide)⟩

end ScoutModel
